import Mathlib

/-
Shallow embedding of
`libs/vertexai/langchain_google_vertexai/vectorstores/vectorstores.py`.

The module orchestrates three external collaborators: an embedding
provider (`embed_query` / `embed_documents`), a nearest-neighbor searcher
(`find_neighbors` / `add_to_index`) and a keyed document storage
(`mget` / `mset`).  We model the collaborators as an environment of pure
response functions, and model every outgoing call that has a side effect
(or whose count/order matters) as an `Event` appended to an explicit
trace.  Each public operation of `_BaseVertexAIVectorStore` becomes a
Lean function from the environment and the operation's arguments to a
pair of (result-or-error, emitted event trace).

Python floats (embedding coordinates, distances) are carried opaquely as
integers: this subsystem performs no arithmetic on them, it only moves
them around, so any carrier with decidable equality is faithful.
-/

namespace VectorStores

/-- Categorical filter namespace, as in the matching-engine SDK:
a name with allow and deny token lists.  The store passes these through
verbatim, never inspecting the fields. -/
structure Namespace where
  name : String
  allow_tokens : List String
  deny_tokens : List String
deriving DecidableEq, Repr

/-- Numeric-range filter namespace, passed through verbatim. -/
structure NumericNamespace where
  name : String
  op : String
  value_int : Int
deriving DecidableEq, Repr

/-- Document metadata: a Python dict, modelled as an association list. -/
abbrev Metadata := List (String × Int)

/-- `langchain_core.documents.Document`: page content plus metadata. -/
structure Document where
  page_content : String
  metadata : Metadata
deriving DecidableEq, Repr, Inhabited

/-- An embedding vector (Python `List[float]`, carrier opaque). -/
abbrev Vec := List Int

/-- The Python exceptions this module can raise. -/
inductive Err where
  | indexError : Err
  | valueError : String → Err
  | notImplementedError : String → Err
deriving DecidableEq, Repr

/-- One outgoing call to a collaborator, recorded in order of issue. -/
inductive Event where
  | findNeighbors : List Vec → Nat → Option (List Namespace) →
      Option (List NumericNamespace) → Event
  | mget : List String → Event
  | mset : List (String × Document) → Event
  | embedQuery : String → Event
  | embedDocuments : List String → Event
  | addToIndex : List String → List Vec → List Metadata → Bool → Event
deriving DecidableEq, Repr

/-- The collaborators' pure response behaviour.  `find_neighbors` returns,
per query vector, an ordered list of (id, distance) pairs; `mget` returns
one optional document per key, in key order; `uuid` is the stream of
values drawn from `uuid.uuid4()`, indexed by draw number within a call. -/
structure Env where
  find_neighbors : List Vec → Nat → Option (List Namespace) →
      Option (List NumericNamespace) → List (List (String × Int))
  mget : List String → List (Option Document)
  embed_query : String → Vec
  embed_documents : List String → List Vec
  uuid : Nat → String

/-- `_BaseVertexAIVectorStore._generate_unique_ids`:
`[str(uuid.uuid4()) for _ in range(number)]`. -/
def _generate_unique_ids (env : Env) (number : Nat) : List String :=
  (List.range number).map env.uuid

/-- `_BaseVertexAIVectorStore.similarity_search_by_vector_with_score`.
The Python body queries the searcher once with `[embedding]`, reads
`neighbors_list[0]` (an `IndexError` when the outer list is empty),
batch-fetches the ids from storage, and either zips documents with
distances or raises a `ValueError` naming the missing ids. -/
def similarity_search_by_vector_with_score (env : Env) (embedding : Vec)
    (k : Nat) (filter_ : Option (List Namespace))
    (numeric_filter : Option (List NumericNamespace)) :
    Except Err (List (Document × Int)) × List Event :=
  let neighbors_list := env.find_neighbors [embedding] k filter_ numeric_filter
  match neighbors_list with
  | [] =>
    (Except.error Err.indexError,
      [Event.findNeighbors [embedding] k filter_ numeric_filter])
  | first :: _ =>
    let keys := first.map (fun p => p.1)
    let distances := first.map (fun p => p.2)
    let documents := env.mget keys
    let trace := [Event.findNeighbors [embedding] k filter_ numeric_filter,
      Event.mget keys]
    if documents.all (fun document => document.isSome) then
      (Except.ok ((documents.map (fun d => d.getD default)).zip distances),
        trace)
    else
      let missing_docs :=
        ((keys.zip documents).filter (fun kd => kd.2.isNone)).map
          (fun kd => kd.1)
      (Except.error (Err.valueError ("Documents with ids: " ++
          toString missing_docs ++ " not found in the storage")), trace)

/-- `_BaseVertexAIVectorStore.similarity_search_with_score`: embed the
query text, then delegate to the by-vector search. -/
def similarity_search_with_score (env : Env) (query : String) (k : Nat)
    (filter_ : Option (List Namespace))
    (numeric_filter : Option (List NumericNamespace)) :
    Except Err (List (Document × Int)) × List Event :=
  let embbedings := env.embed_query query
  let r := similarity_search_by_vector_with_score env embbedings k filter_
    numeric_filter
  (r.1, Event.embedQuery query :: r.2)

/-- `_BaseVertexAIVectorStore.similarity_search`: the list comprehension
`[document for document, _ in self.similarity_search_with_score(...)]`. -/
def similarity_search (env : Env) (query : String) (k : Nat)
    (filter_ : Option (List Namespace))
    (numeric_filter : Option (List NumericNamespace)) :
    Except Err (List Document) × List Event :=
  let r := similarity_search_with_score env query k filter_ numeric_filter
  (r.1.map (fun pairs => pairs.map (fun pair => pair.1)), r.2)

/-- The defaulting step of `add_texts`:
`if metadatas is None: metadatas = [{}] * len(texts)`. -/
def effective_metadatas (texts : List String)
    (metadatas : Option (List Metadata)) : List Metadata :=
  match metadatas with
  | none => List.replicate texts.length ([] : Metadata)
  | some ms => ms

/-- The document-construction step of `add_texts`:
`[Document(page_content=text, metadata=metadata) for text, metadata in zip(texts, metadatas)]`. -/
def built_documents (texts : List String) (ms : List Metadata) :
    List Document :=
  (texts.zip ms).map (fun tm => Document.mk tm.1 tm.2)

/-- The `ValueError` message raised by `add_texts` on a length mismatch. -/
def metadatas_mismatch_message (metadatas_len texts_len : Nat) : String :=
  "`metadatas` should be the same length as `texts` " ++
    toString metadatas_len ++ " != " ++ toString texts_len

/-- `_BaseVertexAIVectorStore.add_texts`: generate one fresh id per text,
default / validate the metadata list, write documents to storage, embed
the texts, upsert to the index, and return the ids. -/
def add_texts (env : Env) (texts : List String)
    (metadatas : Option (List Metadata)) (is_complete_overwrite : Bool) :
    Except Err (List String) × List Event :=
  let ids := _generate_unique_ids env texts.length
  let ms := effective_metadatas texts metadatas
  if ms.length ≠ texts.length then
    (Except.error (Err.valueError
        (metadatas_mismatch_message ms.length texts.length)),
      ([] : List Event))
  else
    let documents := built_documents texts ms
    let embeddings := env.embed_documents texts
    (Except.ok ids,
      [Event.mset (ids.zip documents), Event.embedDocuments texts,
       Event.addToIndex ids embeddings ms is_complete_overwrite])

/-- The embedding provider selected for a store: either the one the
caller supplied, or the deprecated default. -/
inductive EmbeddingsKind where
  | tensorflowHubEmbeddings : EmbeddingsKind
  | custom : String → EmbeddingsKind
deriving DecidableEq, Repr

/-- A warning emitted during construction. -/
inductive Warning where
  | deprecationWarning : String → Warning
deriving DecidableEq, Repr

/-- The `DeprecationWarning` message of `_get_default_embeddings`. -/
def deprecation_message : String :=
  "`TensorflowHubEmbeddings` as a default embbedings is deprecated." ++
    " Will change to `VertexAIEmbbedings`. Please specify the embedding " ++
    "type in the constructor."

/-- `_BaseVertexAIVectorStore._get_default_embeddings`: warn, then return
`TensorflowHubEmbeddings()`. -/
def _get_default_embeddings : EmbeddingsKind × List Warning :=
  (EmbeddingsKind.tensorflowHubEmbeddings,
    [Warning.deprecationWarning deprecation_message])

/-- The state a constructed `_BaseVertexAIVectorStore` holds: the two
backend handles (opaque) and the selected embedding provider. -/
structure Store where
  searcher : String
  document_storage : String
  embeddings : EmbeddingsKind
deriving DecidableEq, Repr

/-- `_BaseVertexAIVectorStore.__init__`:
`self._embeddings = embbedings or self._get_default_embeddings()` —
the default (and its warning) is evaluated only when no provider is
supplied. -/
def vectorstore_init (searcher : String) (document_storage : String)
    (embbedings : Option EmbeddingsKind) : Store × List Warning :=
  match embbedings with
  | some e => (Store.mk searcher document_storage e, [])
  | none =>
    let d := _get_default_embeddings
    (Store.mk searcher document_storage d.1, d.2)

/-- The `NotImplementedError` message of `from_texts`. -/
def from_texts_message : String :=
  "This method is not implemented. Instead, you should initialize the class" ++
    " with `VertexAIVectorSearch.from_components(...)` and then call " ++
    "`add_texts`"

/-- `_BaseVertexAIVectorStore.from_texts`: unconditionally raises
`NotImplementedError` before touching any collaborator. -/
def from_texts (texts : List String) (embedding : EmbeddingsKind)
    (metadatas : Option (List Metadata)) : Except Err Store × List Event :=
  (Except.error (Err.notImplementedError from_texts_message),
    ([] : List Event))

/-! ### Concrete test fixtures, shared by the witness theorems below -/

/-- A concrete stored document. -/
def docA : Document := Document.mk "alpha" []

/-- A second concrete stored document. -/
def docB : Document := Document.mk "beta" []

/-- An environment whose searcher always returns two neighbors and whose
storage holds documents for both of their ids. -/
def envTest : Env :=
  Env.mk
    (fun _ _ _ _ => [[("a", 1), ("b", 2)]])
    (fun keys => keys.map
      (fun key => if key = "a" then some docA
        else if key = "b" then some docB else none))
    (fun _ => [0])
    (fun texts => texts.map (fun _ => [0]))
    (fun i => toString i)

/-- Like `envTest`, but storage has no document for id `"b"`. -/
def envMissing : Env :=
  Env.mk
    (fun _ _ _ _ => [[("a", 1), ("b", 2)]])
    (fun keys => keys.map
      (fun key => if key = "a" then some docA else none))
    (fun _ => [0])
    (fun texts => texts.map (fun _ => [0]))
    (fun i => toString i)

/-! ### Claims -/

/-- Claim C1: for every embedding vector, `k`, and filter pair,
`similarity_search_by_vector_with_score` issues exactly one
nearest-neighbor query to the searcher — passing the single vector, `k`,
and both filters unmodified — and, when every id the searcher returned
resolves to a present document in storage, it returns the list of
(document, distance) pairs in exactly the searcher's ranking order, with
length equal to the number of neighbors the searcher returned. -/
theorem C1_single_query_ordered_results (env : Env) (embedding : Vec)
    (k : Nat) (filter_ : Option (List Namespace))
    (numeric_filter : Option (List NumericNamespace))
    (resp : List (String × Int))
    (hresp : env.find_neighbors [embedding] k filter_ numeric_filter = [resp])
    (hlen : (env.mget (resp.map (fun p => p.1))).length = resp.length)
    (hall : ∀ d ∈ env.mget (resp.map (fun p => p.1)), d.isSome = true) :
    similarity_search_by_vector_with_score env embedding k filter_
        numeric_filter =
      (Except.ok (((env.mget (resp.map (fun p => p.1))).map
          (fun d => d.getD default)).zip (resp.map (fun p => p.2))),
        [Event.findNeighbors [embedding] k filter_ numeric_filter,
         Event.mget (resp.map (fun p => p.1))]) ∧
    (((env.mget (resp.map (fun p => p.1))).map
        (fun d => d.getD default)).zip (resp.map (fun p => p.2))).length =
      resp.length := by
  constructor
  · unfold similarity_search_by_vector_with_score
    rw [hresp]
    simp only
    rw [if_pos (by rw [List.all_eq_true]; exact hall)]
  · rw [List.length_zip, List.length_map, hlen, List.length_map]
    exact Nat.min_self _

/-- Claim C1 witness: a concrete run on `envTest`. -/
theorem C1_single_query_ordered_results_witness :
    similarity_search_by_vector_with_score envTest [0] 2 none none =
      (Except.ok (((envTest.mget (([("a", (1 : Int)), ("b", 2)]).map
          (fun p => p.1))).map (fun d => d.getD default)).zip
          (([("a", (1 : Int)), ("b", 2)]).map (fun p => p.2))),
        [Event.findNeighbors [[0]] 2 none none,
         Event.mget (([("a", (1 : Int)), ("b", 2)]).map (fun p => p.1))]) ∧
    (((envTest.mget (([("a", (1 : Int)), ("b", 2)]).map
        (fun p => p.1))).map (fun d => d.getD default)).zip
        (([("a", (1 : Int)), ("b", 2)]).map (fun p => p.2))).length = 2 :=
  C1_single_query_ordered_results envTest [0] 2 none none
    [("a", 1), ("b", 2)] rfl (by decide) (by decide)

/-- Claim C2: for every non-empty text sequence with metadatas absent or
of equal length, `add_texts` returns exactly one freshly generated id per
input text, in input order (the ids are the successive draws of the id
generator), and — when the draws within the call are pairwise distinct,
the contract of `uuid.uuid4()` — every returned id is unique within the
call. -/
theorem C2_one_fresh_id_per_text (env : Env) (texts : List String)
    (metadatas : Option (List Metadata)) (is_complete_overwrite : Bool)
    (hne : texts ≠ [])
    (hmeta : metadatas = none ∨
      ∃ ms, metadatas = some ms ∧ ms.length = texts.length)
    (huniq : ∀ i < texts.length, ∀ j < texts.length,
      env.uuid i = env.uuid j → i = j) :
    (add_texts env texts metadatas is_complete_overwrite).1 =
      Except.ok (_generate_unique_ids env texts.length) ∧
    (_generate_unique_ids env texts.length).length = texts.length ∧
    (_generate_unique_ids env texts.length).Nodup := by
  refine ⟨?_, ?_, ?_⟩
  · unfold add_texts
    have hms : (effective_metadatas texts metadatas).length = texts.length := by
      rcases hmeta with h | ⟨ms, hm, hl⟩
      · rw [h]; simp [effective_metadatas]
      · rw [hm]; simpa [effective_metadatas] using hl
    rw [if_neg (by simp [hms])]
  · simp [_generate_unique_ids]
  · unfold _generate_unique_ids
    refine List.Nodup.map_on ?_ (List.nodup_range texts.length)
    intro i hi j hj hval
    exact huniq i (List.mem_range.mp hi) j (List.mem_range.mp hj) hval

/-- Claim C2 witness: a concrete run on `envTest` with two texts. -/
theorem C2_one_fresh_id_per_text_witness :
    (add_texts envTest ["hello", "world"] none false).1 =
      Except.ok (_generate_unique_ids envTest 2) ∧
    (_generate_unique_ids envTest 2).length = 2 ∧
    (_generate_unique_ids envTest 2).Nodup :=
  C2_one_fresh_id_per_text envTest ["hello", "world"] none false
    (by decide) (Or.inl rfl) (by decide)

/-- The ids whose `mget` slot came back absent, and the `ValueError`
message built from them, as in the Python `else` branch. -/
def missing_ids (keys : List String) (documents : List (Option Document)) :
    List String :=
  ((keys.zip documents).filter (fun kd => kd.2.isNone)).map (fun kd => kd.1)

/-- The `ValueError` message for a storage consistency violation. -/
def storage_error (keys : List String)
    (documents : List (Option Document)) : Err :=
  Err.valueError ("Documents with ids: " ++
    toString (missing_ids keys documents) ++ " not found in the storage")

/-- Helper: on a non-empty searcher response with an absent `mget` slot,
the by-vector search returns exactly the consistency `ValueError`. -/
theorem by_vector_missing_doc_error (env : Env) (embedding : Vec)
    (k : Nat) (filter_ : Option (List Namespace))
    (numeric_filter : Option (List NumericNamespace))
    (resp : List (String × Int))
    (hresp : env.find_neighbors [embedding] k filter_ numeric_filter = [resp])
    (hmiss : ∃ d ∈ env.mget (resp.map (fun p => p.1)), d = none) :
    (similarity_search_by_vector_with_score env embedding k filter_
        numeric_filter).1 =
      Except.error (storage_error (resp.map (fun p => p.1))
        (env.mget (resp.map (fun p => p.1)))) := by
  unfold similarity_search_by_vector_with_score
  rw [hresp]
  simp only
  rw [if_neg]
  · rfl
  · rcases hmiss with ⟨d, hd, hdn⟩
    rw [List.all_eq_true]
    intro hforall
    have := hforall d hd
    rw [hdn] at this
    simp at this

/-- Claim C3: for every search, by text or by vector, if any id the
searcher returned has no corresponding document in storage (its `mget`
slot is absent), the whole call fails with an error naming the missing
ids, and no partial result list is returned. -/
theorem C3_missing_document_fails_whole_call (env : Env) (query : String)
    (embedding : Vec) (k : Nat) (filter_ : Option (List Namespace))
    (numeric_filter : Option (List NumericNamespace))
    (respV respT : List (String × Int))
    (hrespV : env.find_neighbors [embedding] k filter_ numeric_filter =
      [respV])
    (hrespT : env.find_neighbors [env.embed_query query] k filter_
      numeric_filter = [respT])
    (hmissV : ∃ d ∈ env.mget (respV.map (fun p => p.1)), d = none)
    (hmissT : ∃ d ∈ env.mget (respT.map (fun p => p.1)), d = none) :
    (similarity_search_by_vector_with_score env embedding k filter_
        numeric_filter).1 =
      Except.error (storage_error (respV.map (fun p => p.1))
        (env.mget (respV.map (fun p => p.1)))) ∧
    (similarity_search_with_score env query k filter_ numeric_filter).1 =
      Except.error (storage_error (respT.map (fun p => p.1))
        (env.mget (respT.map (fun p => p.1)))) := by
  constructor
  · exact by_vector_missing_doc_error env embedding k filter_ numeric_filter
      respV hrespV hmissV
  · have h := by_vector_missing_doc_error env (env.embed_query query) k
      filter_ numeric_filter respT hrespT hmissT
    unfold similarity_search_with_score
    simpa using h

/-- Claim C3 witness: a concrete run on `envMissing`, whose storage lacks
a document for id `"b"`. -/
theorem C3_missing_document_fails_whole_call_witness :
    (similarity_search_by_vector_with_score envMissing [0] 2 none
        none).1 =
      Except.error (storage_error (([("a", (1 : Int)), ("b", 2)]).map
        (fun p => p.1))
        (envMissing.mget (([("a", (1 : Int)), ("b", 2)]).map
          (fun p => p.1)))) ∧
    (similarity_search_with_score envMissing "query" 2 none none).1 =
      Except.error (storage_error (([("a", (1 : Int)), ("b", 2)]).map
        (fun p => p.1))
        (envMissing.mget (([("a", (1 : Int)), ("b", 2)]).map
          (fun p => p.1)))) :=
  C3_missing_document_fails_whole_call envMissing "query" [0] 2 none none
    [("a", 1), ("b", 2)] [("a", 1), ("b", 2)] rfl rfl
    (by decide) (by decide)

/-- Claim C4: for every texts sequence and every metadatas list whose
length differs from the number of texts, `add_texts` fails with a
validation error before invoking document storage, the embedding
provider, or the searcher: the emitted trace is empty, so zero calls
reach storage and the searcher, and no write occurs. -/
theorem C4_metadata_mismatch_fails_before_any_call (env : Env)
    (texts : List String) (ms : List Metadata) (is_complete_overwrite : Bool)
    (hlen : ms.length ≠ texts.length) :
    add_texts env texts (some ms) is_complete_overwrite =
      (Except.error (Err.valueError
          (metadatas_mismatch_message ms.length texts.length)),
        ([] : List Event)) := by
  unfold add_texts
  rw [if_pos (by simpa [effective_metadatas] using hlen)]
  rfl

/-- Claim C4 witness: one text and an empty metadata list. -/
theorem C4_metadata_mismatch_fails_before_any_call_witness :
    add_texts envTest ["hello"] (some []) false =
      (Except.error (Err.valueError (metadatas_mismatch_message 0 1)),
        ([] : List Event)) :=
  C4_metadata_mismatch_fails_before_any_call envTest ["hello"] [] false
    (by decide)

/-- Claim C5: for identical query, `k`, and filter inputs,
`similarity_search` returns exactly the document sequence obtained by
dropping the distance component from `similarity_search_with_score`'s
result, in the same order (and issues the same collaborator calls). -/
theorem C5_search_drops_scores (env : Env) (query : String) (k : Nat)
    (filter_ : Option (List Namespace))
    (numeric_filter : Option (List NumericNamespace)) :
    (similarity_search env query k filter_ numeric_filter).1 =
      (similarity_search_with_score env query k filter_ numeric_filter).1.map
        (fun pairs => pairs.map (fun pair => pair.1)) ∧
    (similarity_search env query k filter_ numeric_filter).2 =
      (similarity_search_with_score env query k filter_ numeric_filter).2 :=
  ⟨rfl, rfl⟩

/-- Claim C6: within every successful `add_texts` call, the batch write
of all (id, document) pairs to document storage happens before the
searcher upsert receives those ids — the `mset` event precedes the
`addToIndex` event in the trace — and the keys written to storage are
exactly the ids submitted to the index, so every id the index receives
already has an entry in document storage. -/
theorem C6_storage_write_before_index_upsert (env : Env)
    (texts : List String) (metadatas : Option (List Metadata))
    (is_complete_overwrite : Bool)
    (hmeta : metadatas = none ∨
      ∃ ms, metadatas = some ms ∧ ms.length = texts.length) :
    ∃ kv_pairs embeddings ms,
      (add_texts env texts metadatas is_complete_overwrite).2 =
        [Event.mset kv_pairs, Event.embedDocuments texts,
         Event.addToIndex (_generate_unique_ids env texts.length)
           embeddings ms is_complete_overwrite] ∧
      kv_pairs.map Prod.fst = _generate_unique_ids env texts.length := by
  have hms : (effective_metadatas texts metadatas).length = texts.length := by
    rcases hmeta with h | ⟨ms, hm, hl⟩
    · rw [h]; simp [effective_metadatas]
    · rw [hm]; simpa [effective_metadatas] using hl
  refine ⟨(_generate_unique_ids env texts.length).zip
      (built_documents texts (effective_metadatas texts metadatas)),
    env.embed_documents texts, effective_metadatas texts metadatas, ?_, ?_⟩
  · unfold add_texts
    rw [if_neg (by simp [hms])]
  · refine List.map_fst_zip _ _ ?_
    rw [_generate_unique_ids, List.length_map, List.length_range,
      built_documents, List.length_map, List.length_zip, hms]
    exact Nat.le_of_eq (Nat.min_self _).symm

/-- Claim C6 witness: a concrete successful call on `envTest`. -/
theorem C6_storage_write_before_index_upsert_witness :
    ∃ kv_pairs embeddings ms,
      (add_texts envTest ["hello", "world"] none false).2 =
        [Event.mset kv_pairs, Event.embedDocuments ["hello", "world"],
         Event.addToIndex (_generate_unique_ids envTest 2)
           embeddings ms false] ∧
      kv_pairs.map Prod.fst = _generate_unique_ids envTest 2 :=
  C6_storage_write_before_index_upsert envTest ["hello", "world"] none
    false (Or.inl rfl)

/-- Claim C7: for every texts sequence, when no metadatas list is given
`add_texts` builds one document per text with an empty metadata mapping;
when metadatas is given with matching length, the i-th document written
to storage has content equal to the i-th text and metadata equal to the
i-th metadata mapping; and the searcher upsert receives the same ids as
the storage write, one embedding vector per text (the batch-embedding
output, whose length matches the texts by the provider's contract), and
the same metadatas. -/
theorem C7_documents_built_from_texts_and_metadatas (env : Env)
    (texts : List String) (metadatas : Option (List Metadata))
    (is_complete_overwrite : Bool)
    (hmeta : metadatas = none ∨
      ∃ ms0, metadatas = some ms0 ∧ ms0.length = texts.length)
    (hembed : (env.embed_documents texts).length = texts.length) :
    (add_texts env texts metadatas is_complete_overwrite).2 =
      [Event.mset ((_generate_unique_ids env texts.length).zip
          (built_documents texts (effective_metadatas texts metadatas))),
       Event.embedDocuments texts,
       Event.addToIndex (_generate_unique_ids env texts.length)
         (env.embed_documents texts) (effective_metadatas texts metadatas)
         is_complete_overwrite] ∧
    (metadatas = none → effective_metadatas texts metadatas =
      List.replicate texts.length ([] : Metadata)) ∧
    (env.embed_documents texts).length = texts.length ∧
    (∀ i, i < texts.length → ∃ t m, texts[i]? = some t ∧
      (effective_metadatas texts metadatas)[i]? = some m ∧
      (built_documents texts (effective_metadatas texts metadatas))[i]? =
        some (Document.mk t m)) := by
  have hms : (effective_metadatas texts metadatas).length = texts.length := by
    rcases hmeta with h | ⟨ms0, hm, hl⟩
    · rw [h]; simp [effective_metadatas]
    · rw [hm]; simpa [effective_metadatas] using hl
  refine ⟨?_, ?_, hembed, ?_⟩
  · unfold add_texts
    rw [if_neg (by simp [hms])]
  · intro h
    rw [h]
    simp [effective_metadatas]
  · intro i hi
    have hiz : i < (texts.zip (effective_metadatas texts metadatas)).length := by
      rw [List.length_zip, hms]
      exact lt_min hi hi
    refine ⟨texts[i], (effective_metadatas texts metadatas)[i],
      List.getElem?_eq_getElem hi, List.getElem?_eq_getElem (hms ▸ hi), ?_⟩
    rw [built_documents, List.getElem?_map, List.getElem?_eq_getElem hiz]
    simp only [Option.map_some']
    rw [List.getElem_zip]

/-- Claim C7 witness: the spec's example, two texts with two metadata
mappings, run on `envTest`. -/
theorem C7_documents_built_from_texts_and_metadatas_witness :
    (add_texts envTest ["hello", "world"]
        (some [[("k", 1)], [("k", 2)]]) false).2 =
      [Event.mset ((_generate_unique_ids envTest 2).zip
          (built_documents ["hello", "world"]
            (effective_metadatas ["hello", "world"]
              (some [[("k", 1)], [("k", 2)]])))),
       Event.embedDocuments ["hello", "world"],
       Event.addToIndex (_generate_unique_ids envTest 2)
         (envTest.embed_documents ["hello", "world"])
         (effective_metadatas ["hello", "world"]
           (some [[("k", 1)], [("k", 2)]])) false] ∧
    (some [[("k", (1 : Int))], [("k", 2)]] = none →
      effective_metadatas ["hello", "world"]
          (some [[("k", 1)], [("k", 2)]]) =
        List.replicate 2 ([] : Metadata)) ∧
    (envTest.embed_documents ["hello", "world"]).length = 2 ∧
    (∀ i, i < 2 → ∃ t m, (["hello", "world"])[i]? = some t ∧
      (effective_metadatas ["hello", "world"]
        (some [[("k", 1)], [("k", 2)]]))[i]? = some m ∧
      (built_documents ["hello", "world"]
        (effective_metadatas ["hello", "world"]
          (some [[("k", 1)], [("k", 2)]])))[i]? =
        some (Document.mk t m)) :=
  C7_documents_built_from_texts_and_metadatas envTest ["hello", "world"]
    (some [[("k", 1)], [("k", 2)]]) false
    (Or.inr ⟨[[("k", 1)], [("k", 2)]], rfl, rfl⟩) (by decide)

/-- Claim C8: for every argument combination, the generic `from_texts`
factory fails immediately with an unsupported-operation error and
performs no side effects: the emitted trace is empty, so neither
document storage nor the searcher is touched. -/
theorem C8_from_texts_always_fails (texts : List String)
    (embedding : EmbeddingsKind) (metadatas : Option (List Metadata)) :
    from_texts texts embedding metadatas =
      (Except.error (Err.notImplementedError from_texts_message),
        ([] : List Event)) :=
  rfl

/-- Claim C9: when no embedding provider is supplied, the constructor
selects the explicitly-labeled default provider
(`TensorflowHubEmbeddings`) and emits a deprecation warning; when a
provider is supplied, that provider is used and no default selection
(hence no warning) occurs. -/
theorem C9_default_embeddings_with_deprecation (searcher : String)
    (document_storage : String) (e : EmbeddingsKind) :
    (vectorstore_init searcher document_storage none).1.embeddings =
      EmbeddingsKind.tensorflowHubEmbeddings ∧
    (vectorstore_init searcher document_storage none).2 =
      [Warning.deprecationWarning deprecation_message] ∧
    (vectorstore_init searcher document_storage (some e)).1.embeddings = e ∧
    (vectorstore_init searcher document_storage (some e)).2 = [] :=
  ⟨rfl, rfl, rfl, rfl⟩

/-- Claim C10: `similarity_search_by_vector_with_score` unconditionally
reads the first per-vector result list of the searcher's
`find_neighbors` output; it hits the out-of-bounds access (Python
`IndexError` on `neighbors_list[0]`) exactly when the searcher returns
an empty outer list — equivalently, the call is free of out-of-bounds
access if and only if the outer result list is non-empty. -/
theorem C10_first_result_read_oob_iff_empty (env : Env) (embedding : Vec)
    (k : Nat) (filter_ : Option (List Namespace))
    (numeric_filter : Option (List NumericNamespace)) :
    (similarity_search_by_vector_with_score env embedding k filter_
        numeric_filter).1 = Except.error Err.indexError ↔
      env.find_neighbors [embedding] k filter_ numeric_filter = [] := by
  unfold similarity_search_by_vector_with_score
  cases h : env.find_neighbors [embedding] k filter_ numeric_filter with
  | nil => simp
  | cons first rest =>
    simp only [List.cons_ne_nil, iff_false]
    split
    · simp
    · simp

end VectorStores
